import Mathlib

/-!
# Verification of the Njordr stateful navigation & dispatch broker

Shallow embedding of the Njordr broker service (`njordr_service/main.py`,
`njordr_service/url_state_handler.py`) together with the protocol models it
uses.  Python strings are Lean `String`s, Python `dict` state is passed
explicitly, fallible code returns `Except`.

The per-user navigation state (`UrlStateHandler`) manipulates
`pathlib.PurePosixPath` values and calls `Path.resolve()`.  `resolve()` on a
relative path first makes it absolute against the process working directory
and then normalizes it lexically (we model a symlink-free filesystem, so
`resolve` is exactly cwd-join plus lexical `..`-clamping normalization).  The
working directory is therefore an explicit parameter `cwd`, given as its
(canonical, `..`-free) list of components.
-/

namespace Njordr

/-- Python-level exceptions that the embedded code can raise.  Only the
constructors that the modelled code paths can actually produce are listed:
`valueErrorUrlNotFound` is `ValueError("URL not found")` from
`UrlStateHandler.__aenter__`; `attributeError` is the `AttributeError` from an
attribute lookup that fails; `connectTimeout` is `httpx.ConnectTimeout`;
`jsonDecodeError` is `json.JSONDecodeError`; `validationError` is
`pydantic.ValidationError` (which also covers the unknown-method rejection of
the `Action` validator). -/
inductive PyExc where
  | valueErrorUrlNotFound
  | attributeError
  | connectTimeout
  | jsonDecodeError
  | validationError
  | unknownMethod
  deriving DecidableEq, Repr

/-! ## Path model (`pathlib.PurePosixPath` + `Path.resolve`) -/

/-- Splits a character list at every slash, like Python `str.split("/")`:
`"a//b"` gives `["a", "", "b"]`, and the empty input gives `[""]`. -/
def splitSlashAux : List Char → List Char → List String
  | [], acc => [String.mk acc.reverse]
  | c :: rest, acc =>
    if c = '/' then String.mk acc.reverse :: splitSlashAux rest []
    else splitSlashAux rest (c :: acc)

/-- Slash-split of a string. -/
def splitSlash (s : String) : List String :=
  splitSlashAux s.data []

/-- Parses a string the way `pathlib.PurePosixPath` does: records whether the
path is absolute and keeps the non-empty, non-`"."` components (multiple
slashes collapse, `"."` components are dropped, `".."` components are kept).
`PurePosixPath` reduces an initial run of three or more slashes to one and
`Path.resolve` collapses a doubled leading slash as well, so for the resolved
output only absoluteness matters. -/
def pathParse (s : String) : Bool × List String :=
  (decide (s.data.head? = some '/'),
   (splitSlash s).filter (fun p => p ≠ "" && p ≠ "."))

/-- Models `PurePosixPath.__truediv__` (the `/=` in `__aenter__`): an absolute
right operand replaces the left one, otherwise the components concatenate. -/
def pathJoin (a b : Bool × List String) : Bool × List String :=
  if b.1 then b else (a.1, a.2 ++ b.2)

/-- Lexical normalization pass of `Path.resolve`: walk the components, a
`".."` removes the last accumulated component (and is a no-op at root, which
is exactly the clamping behaviour), anything else is appended. -/
def resolveParts (acc : List String) : List String → List String
  | [] => acc
  | p :: rest =>
    if p = ".." then resolveParts acc.dropLast rest
    else resolveParts (acc ++ [p]) rest

/-- Renders an absolute path from its components, as `Path.as_posix` renders
the result of `resolve`: root is `"/"`, otherwise `"/"`-separated components
with no trailing slash. -/
def renderAbs (parts : List String) : String :=
  if parts = [] then "/" else parts.foldl (fun a p => a ++ "/" ++ p) ""

/-- Models `Path.resolve().as_posix()` over a symlink-free filesystem: a
relative path is first made absolute against the working directory `cwd`,
then `".."` components are eliminated lexically, clamping at root. -/
def pathResolve (cwd : List String) (p : Bool × List String) : String :=
  renderAbs (resolveParts (if p.1 then [] else cwd) p.2)

/-- Models `UrlStateHandler.__aenter__` (`url_state_handler.py` lines 41-59).
`stored` is `state_data.get("url")`, `newUrl` is the `new_url` constructor
argument, `prevRequired` is `prev_url_required`, and `cwd` is the process
working directory that `Path.resolve()` consults for relative paths.  The
returned string is both the value of the `async with` binding and the value
written into `state_data["url"]` (persisted later by `__aexit__`). -/
def UrlStateHandler.aenter (cwd : List String) (stored : Option String)
    (newUrl : Option String) (prevRequired : Bool) : Except PyExc String :=
  if prevRequired && stored.isNone then
    .error .valueErrorUrlNotFound
  else
    let base := if !prevRequired || stored.isNone then "" else stored.getD ""
    match newUrl with
    | none => .ok base
    | some nu => .ok (pathResolve cwd (pathJoin (pathParse base) (pathParse nu)))

/-! ## Action codec

The missing `njordr` library (src ships only an older `proto.py` revision
without it) defines the pydantic models the service imports.  Modelled from
the spec: `Action` is the button-payload triple with wire format
`\x7b"method": "get"|"post", "endpoint": string, "data": string|null\x7d`,
the method restricted to the allow-list at validation time.  Encoding is
`Action.model_dump_json()` (pydantic v2, hence `serde_json`: compact output,
declaration field order, `"`/`\`/control-character escaping, raw UTF-8
otherwise).  Decoding is `json.loads` followed by `Action(**fields)`
(`main.py` lines 222-225); the parser here covers the compact fixed-order
documents that `model_dump_json` emits, which is the sublanguage on which all
decoded payloads in the verified properties live. -/

/-- Button action payload: pydantic model `njordr.Action` (modelled from the
spec, see section header). -/
structure Action where
  method : String
  endpoint : String
  data : Option String
  deriving DecidableEq, Repr

/-- Lower-case hex digit of `n < 16`, as serde_json prints in `\u00XX`. -/
def hexDig (n : Nat) : Char :=
  if n < 10 then Char.ofNat (48 + n) else Char.ofNat (87 + n)

/-- Numeric value of a hex digit accepted by `json.loads` in `\uXXXX`. -/
def hexVal (c : Char) : Option Nat :=
  if '0' ≤ c ∧ c ≤ '9' then some (c.toNat - 48)
  else if 'a' ≤ c ∧ c ≤ 'f' then some (c.toNat - 87)
  else if 'A' ≤ c ∧ c ≤ 'F' then some (c.toNat - 55)
  else none

/-- JSON string escaping of one character, exactly as serde_json (the
pydantic v2 serializer) emits it: the two mandatory escapes, the five short
control escapes, `\u00XX` for the remaining control characters, everything
else verbatim. -/
def escChar (c : Char) : List Char :=
  if c = '"' then ['\\', '"']
  else if c = '\\' then ['\\', '\\']
  else if c = '\x08' then ['\\', 'b']
  else if c = '\t' then ['\\', 't']
  else if c = '\n' then ['\\', 'n']
  else if c = '\x0c' then ['\\', 'f']
  else if c = '\r' then ['\\', 'r']
  else if c.toNat < 32 then ['\\', 'u', '0', '0', hexDig (c.toNat / 16), hexDig (c.toNat % 16)]
  else [c]

/-- JSON string escaping of a character list. -/
def escChars : List Char → List Char
  | [] => []
  | c :: rest => escChar c ++ escChars rest

/-- JSON string escaping of a string. -/
def escString (s : String) : String :=
  String.mk (escChars s.data)

/-- Models `Action.model_dump_json()`: the compact JSON document with the
fields in declaration order and `null` for an absent payload. -/
def Action.model_dump_json (a : Action) : String :=
  "\x7b\"method\":\"" ++ escString a.method ++ "\",\"endpoint\":\"" ++ escString a.endpoint
    ++ "\",\"data\":" ++
      (match a.data with
       | none => "null"
       | some d => "\"" ++ escString d ++ "\"") ++ "\x7d"

/-- Short escape sequences accepted by `json.loads` after a backslash. -/
def unescC (e : Char) : Option Char :=
  if e = '"' then some '"'
  else if e = '\\' then some '\\'
  else if e = '/' then some '/'
  else if e = 'b' then some '\x08'
  else if e = 'f' then some '\x0c'
  else if e = 'n' then some '\n'
  else if e = 'r' then some '\r'
  else if e = 't' then some '\t'
  else none

/-- JSON string-body parser (the part after the opening quote), as
`json.loads` reads it: consumes up to the closing quote, undoing escapes, and
returns the decoded characters together with the unconsumed suffix.  `fuel`
only bounds the recursion; any `fuel` larger than the number of decoded
characters gives the parse. -/
def parseStrAux : Nat → List Char → Option (List Char × List Char)
  | 0, _ => none
  | _ + 1, [] => none
  | fuel + 1, c :: rest =>
    if c = '"' then some ([], rest)
    else if c = '\\' then
      match rest with
      | [] => none
      | e :: rest2 =>
        if e = 'u' then
          match rest2 with
          | h1 :: h2 :: h3 :: h4 :: rest3 =>
            match hexVal h1, hexVal h2, hexVal h3, hexVal h4 with
            | some a, some b, some c3, some d =>
              (parseStrAux fuel rest3).map
                (fun p => (Char.ofNat (((a * 16 + b) * 16 + c3) * 16 + d) :: p.1, p.2))
            | _, _, _, _ => none
          | _ => none
        else
          match unescC e with
          | some d => (parseStrAux fuel rest2).map (fun p => (d :: p.1, p.2))
          | none => none
    else (parseStrAux fuel rest).map (fun p => (c :: p.1, p.2))

/-- Consumes an exact literal prefix, failing otherwise. -/
def expectLit : List Char → List Char → Option (List Char)
  | [], s => some s
  | _ :: _, [] => none
  | c :: l, d :: s => if c = d then expectLit l s else none

/-- Parsing layer of the decode: `json.loads` on the compact documents
produced by `Action.model_dump_json` (see the section header), yielding the
field values. -/
def decodeActionAux (s : List Char) : Option Action := do
  let s ← expectLit ("\x7b\"method\":\"").data s
  let (m, s) ← parseStrAux (s.length + 1) s
  let s ← expectLit (",\"endpoint\":\"").data s
  let (e, s) ← parseStrAux (s.length + 1) s
  let s ← expectLit (",\"data\":").data s
  if s = ('n' :: 'u' :: 'l' :: 'l' :: '\x7d' :: []) then
    some ⟨String.mk m, String.mk e, none⟩
  else
    match s with
    | '"' :: s2 => do
      let (d, s3) ← parseStrAux (s2.length + 1) s2
      if s3 = ('\x7d' :: []) then some ⟨String.mk m, String.mk e, some (String.mk d)⟩
      else none
    | _ => none

/-- Models the button-payload decode in `callback_query_handler` (`main.py`
lines 222-225): `json.loads` then `Action(**fields)`, whose validator rejects
methods outside the allow-list (modelled from the spec, see section
header). -/
def decodeAction (s : String) : Except PyExc Action :=
  match decodeActionAux s.data with
  | none => .error .jsonDecodeError
  | some a =>
    if a.method = "get" || a.method = "post" then .ok a else .error .unknownMethod

/-! ## Reply envelope models and the service call

`PropModel` and `MessageModel` are the remaining pydantic models of the
missing `njordr` library revision that `main.py` imports (modelled from the
spec: a button is a label plus an `Action`, an envelope is display text plus
the ordered `props` list). -/

/-- Button description inside a backend envelope (modelled from the spec). -/
structure PropModel where
  text : String
  action : Action
  deriving DecidableEq, Repr

/-- Backend reply envelope body, `njordr.MessageModel` (modelled from the
spec). -/
structure MessageModel where
  text : String
  props : List PropModel
  deriving DecidableEq, Repr

/-- Generic JSON value, for the body-decoding layer of the success path. -/
inductive JVal where
  | null
  | str (s : String)
  | arr (xs : List JVal)
  | obj (fields : List (String × JVal))

mutual

/-- Fuel-bounded `json.loads` over the envelope grammar (strings, `null`,
arrays, objects — numbers and booleans never occur in the protocol), on
compact documents. -/
def jparse : Nat → List Char → Option (JVal × List Char)
  | 0, _ => none
  | fuel + 1, s =>
    match s with
    | '"' :: rest => (parseStrAux (rest.length + 1) rest).map (fun p => (.str (String.mk p.1), p.2))
    | 'n' :: 'u' :: 'l' :: 'l' :: rest => some (.null, rest)
    | '[' :: ']' :: rest => some (.arr [], rest)
    | '[' :: rest => (jparseElems fuel rest).map (fun p => (.arr p.1, p.2))
    | '\x7b' :: '\x7d' :: rest => some (.obj [], rest)
    | '\x7b' :: rest => (jparseFields fuel rest).map (fun p => (.obj p.1, p.2))
    | _ => none

/-- Comma-separated array elements up to the closing bracket. -/
def jparseElems : Nat → List Char → Option (List JVal × List Char)
  | 0, _ => none
  | fuel + 1, s => do
    let (v, s) ← jparse fuel s
    match s with
    | ',' :: rest => (jparseElems fuel rest).map (fun p => (v :: p.1, p.2))
    | ']' :: rest => some ([v], rest)
    | _ => none

/-- Comma-separated object members up to the closing brace. -/
def jparseFields : Nat → List Char → Option (List (String × JVal) × List Char)
  | 0, _ => none
  | fuel + 1, s =>
    match s with
    | '"' :: rest => do
      let (k, s) ← parseStrAux (rest.length + 1) rest
      match s with
      | ':' :: s => do
        let (v, s) ← jparse fuel s
        match s with
        | ',' :: rest2 => (jparseFields fuel rest2).map (fun p => ((String.mk k, v) :: p.1, p.2))
        | '\x7d' :: rest2 => some ([(String.mk k, v)], rest2)
        | _ => none
      | _ => none
    | _ => none

end

/-- Python dict lookup on decoded JSON object fields. -/
def dictGet (fs : List (String × JVal)) (k : String) : Option JVal :=
  (fs.find? (fun f => f.1 = k)).map (fun f => f.2)

/-- Pydantic validation of an `Action` value (modelled from the spec:
`method` and `endpoint` are required strings, `data` an optional
string-or-null, methods outside the allow-list rejected). -/
def actionValidate (v : JVal) : Except PyExc Action :=
  match v with
  | .obj fs =>
    match dictGet fs "method", dictGet fs "endpoint" with
    | some (.str m), some (.str e) =>
      if m = "get" || m = "post" then
        match dictGet fs "data" with
        | none | some .null => .ok ⟨m, e, none⟩
        | some (.str d) => .ok ⟨m, e, some d⟩
        | some _ => .error .validationError
      else .error .unknownMethod
    | _, _ => .error .validationError
  | _ => .error .validationError

/-- Pydantic validation of a `PropModel` value (modelled from the spec). -/
def propValidate (v : JVal) : Except PyExc PropModel :=
  match v with
  | .obj fs =>
    match dictGet fs "text", dictGet fs "action" with
    | some (.str t), some av => (actionValidate av).map (fun a => ⟨t, a⟩)
    | _, _ => .error .validationError
  | _ => .error .validationError

/-- Pydantic validation of a `MessageModel` value (modelled from the spec:
required `text` string and `props` list). -/
def messageModelValidate (v : JVal) : Except PyExc MessageModel :=
  match v with
  | .obj fs =>
    match dictGet fs "text", dictGet fs "props" with
    | some (.str t), some (.arr ps) =>
      (ps.mapM propValidate).map (fun props => ⟨t, props⟩)
    | _, _ => .error .validationError
  | _ => .error .validationError

/-- Models `json.loads(raw)` followed by `njordr.Proto(msg=raw_parsed).msg`
(`main.py` lines 109-110).  Note the source passes the *entire* decoded body
as the `msg` field, so `MessageModel` validation runs on the whole body (for
the spec's envelope `\x7b"msg": ...\x7d` this is itself a latent bug: the
top level has no `text`/`props` fields).  The branch is unreachable in the
service because of the misspelt attribute access modelled below. -/
def parseProtoWrapped (raw : String) : Except PyExc MessageModel :=
  match jparse raw.data.length raw.data with
  | some (v, []) => messageModelValidate v
  | _ => .error .jsonDecodeError

/-- An `httpx.Response`: the attributes the source could legitimately read.
The body is `content` (bytes; a string here). -/
structure Response where
  content : String
  deriving DecidableEq, Repr

/-- Python attribute lookup on a `Response`.  `getattr`-style: only the
declared attribute names resolve; anything else is an `AttributeError`. -/
def getattrResponse (r : Response) (name : String) : Option String :=
  if name = "content" then some r.content else none

/-- Outcome of the single outbound HTTP call of one update.  `success`
carries the `httpx.Response`; `connectError` is a raised
`httpx.ConnectError`; `connectTimeout` is a raised `httpx.ConnectTimeout`
(the call carries httpx's default 5 s timeout — the source passes no explicit
one). -/
inductive CallOutcome where
  | success (r : Response)
  | connectError
  | connectTimeout
  deriving DecidableEq, Repr

/-- Models `make_service_call` (`main.py` lines 71-114) as a function of the
transport outcome of its one HTTP call.  The `try` block covers only the
request itself and catches only `httpx.ConnectError` (returning `None`, line
102-107); `httpx.ConnectTimeout` is a sibling class under
`httpx.TransportError`, not a subclass of `ConnectError`, so a timeout
propagates.  On success the source reads `response.contect` (line 109) — a
misspelling of `content` — so the attribute lookup fails. -/
def make_service_call (outcome : CallOutcome) : Except PyExc (Option MessageModel) :=
  match outcome with
  | .connectError => .ok none
  | .connectTimeout => .error .connectTimeout
  | .success r =>
    match getattrResponse r "contect" with
    | none => .error .attributeError
    | some raw => (parseProtoWrapped raw).map some

/-! ## Reply rendering and the three handlers -/

/-- An `aiogram.types.InlineKeyboardButton` with its embedded payload. -/
structure InlineKeyboardButton where
  text : String
  callback_data : String
  deriving DecidableEq, Repr

/-- Models `generate_keyboard` (`main.py` lines 33-68): no keyboard at all
for an empty props list, otherwise one single-button row per prop, in list
order, each button carrying the prop's label and the pydantic-serialized
action. -/
def generate_keyboard (props : List PropModel) :
    Option (List (List InlineKeyboardButton)) :=
  if props.length = 0 then none
  else some (props.map (fun p => [⟨p.text, p.action.model_dump_json⟩]))

/-- What an update handler did, as seen by the chat transport: sent a fresh
message (`answer`), edited the clicked message (`edit_text`), or let an
exception escape to the aiogram dispatcher (which only logs it — the user
receives nothing). -/
inductive HandlerResult where
  | answered (text : String) (keyboard : Option (List (List InlineKeyboardButton)))
  | editedText (text : String) (keyboard : Option (List (List InlineKeyboardButton)))
  | raised (e : PyExc)
  deriving DecidableEq, Repr

/-- Result of dispatching one update: the conversation store's `url` value
afterwards, what reached the transport, and how many outbound backend calls
were made. -/
structure DispatchOut where
  store : Option String
  result : HandlerResult
  calls : Nat
  deriving DecidableEq, Repr

/-- Shared tail of the three handlers: one `make_service_call`, then either a
reply rendered from the envelope, the fixed `"Internal error"` reply when the
call returned `None`, or a propagating exception.  `__aexit__` of
`UrlStateHandler` runs `update_data` unconditionally — also when the body
raises — so the computed cursor is persisted in every branch.  `edited` picks
`edit_text` (callback handler) over `answer` (message handlers) for the
success reply. -/
def dispatchTail (url : String) (edited : Bool) (outcome : CallOutcome) : DispatchOut :=
  match make_service_call outcome with
  | .error e => ⟨some url, .raised e, 1⟩
  | .ok none => ⟨some url, .answered "Internal error" none, 1⟩
  | .ok (some msg) =>
    if edited then ⟨some url, .editedText msg.text (generate_keyboard msg.props), 1⟩
    else ⟨some url, .answered msg.text (generate_keyboard msg.props), 1⟩

/-- Models `start_handler` (`main.py` lines 117-155): enters
`UrlStateHandler("", state, False)`, issues one GET for the resolved url, and
renders the reply; `None` from the call yields the fixed reply. -/
def start_handler (cwd : List String) (store : Option String)
    (outcome : CallOutcome) : DispatchOut :=
  match UrlStateHandler.aenter cwd store (some "") false with
  | .error e => ⟨store, .raised e, 0⟩
  | .ok url => dispatchTail url false outcome

/-- Models `message_handler` (`main.py` lines 158-197): builds the POST
action, then enters `UrlStateHandler(None, state, True)`; a missing stored
cursor raises out of `__aenter__`, before any call and before `__aexit__`
could write. -/
def message_handler (cwd : List String) (store : Option String)
    (_text : Option String) (outcome : CallOutcome) : DispatchOut :=
  match UrlStateHandler.aenter cwd store none true with
  | .error e => ⟨store, .raised e, 0⟩
  | .ok url => dispatchTail url false outcome

/-- Models `callback_query_handler` (`main.py` lines 200-258): missing
callback data answers the fixed reply; the payload is decoded
(`json.loads` + `Action(**fields)`, exceptions propagate); then
`UrlStateHandler(action.endpoint, state, True)` advances the cursor and the
call/render tail runs with `edit_text` on success. -/
def callback_query_handler (cwd : List String) (store : Option String)
    (data : Option String) (outcome : CallOutcome) : DispatchOut :=
  match data with
  | none => ⟨store, .answered "Internal error" none, 0⟩
  | some s =>
    match decodeAction s with
    | .error e => ⟨store, .raised e, 0⟩
    | .ok action =>
      match UrlStateHandler.aenter cwd store (some action.endpoint) true with
      | .error e => ⟨store, .raised e, 0⟩
      | .ok url => dispatchTail url true outcome


/-! ## Helper lemmas -/

/-- Components surviving the `PurePosixPath` constructor filter are nonempty
and not `"."`. -/
theorem pathParse_parts_valid (s : String) :
    ∀ p ∈ (pathParse s).2, p ≠ "" ∧ p ≠ "." := by
  intro p hp
  have := List.mem_filter.mp hp
  simpa using this.2

/-- Joined components come from one of the operands. -/
theorem pathJoin_parts (a b : Bool × List String) :
    ∀ p ∈ (pathJoin a b).2, p ∈ a.2 ∨ p ∈ b.2 := by
  intro p hp
  unfold pathJoin at hp
  split at hp
  · exact Or.inr hp
  · simpa using (List.mem_append.mp hp)

/-- The `..`-elimination pass only ever emits components that were already in
the accumulator or are non-`".."` input components. -/
theorem resolveParts_valid (P : String → Prop) :
    ∀ (l acc : List String), (∀ x ∈ acc, P x) → (∀ x ∈ l, x ≠ ".." → P x) →
      ∀ x ∈ resolveParts acc l, P x := by
  intro l
  induction l with
  | nil => intro acc hacc _ x hx; exact hacc x hx
  | cons p rest ih =>
    intro acc hacc hl x hx
    rw [resolveParts] at hx
    split at hx
    · refine ih acc.dropLast (fun y hy => hacc y (List.dropLast_subset _ hy))
        (fun y hy hne => hl y (List.mem_cons_of_mem _ hy) hne) x hx
    · rename_i hpne
      refine ih (acc ++ [p]) (fun y hy => ?_)
        (fun y hy hne => hl y (List.mem_cons_of_mem _ hy) hne) x hx
      rcases List.mem_append.mp hy with hy | hy
      · exact hacc y hy
      · rcases List.mem_singleton.mp hy with rfl
        exact hl y (List.mem_cons_self _ _) hpne

/-- A hex digit printed by the serializer reads back as its value. -/
theorem hexVal_hexDig (n : Nat) (h : n < 16) : hexVal (hexDig n) = some n := by
  interval_cases n <;> rfl

/-- One serialized character is parsed back, whatever follows it. -/
theorem parseStrAux_escChar (c : Char) (f : Nat) (tail : List Char)
    (k : List Char × List Char) (h : parseStrAux f tail = some k) :
    parseStrAux (f + 1) (escChar c ++ tail) = some (c :: k.1, k.2) := by
  by_cases h1 : c = '"'
  · subst h1; simp [escChar, parseStrAux, unescC, h]
  by_cases h2 : c = '\\'
  · subst h2; simp [escChar, parseStrAux, unescC, h]
  by_cases h3 : c = '\x08'
  · subst h3; simp [escChar, parseStrAux, unescC, h]
  by_cases h4 : c = '\t'
  · subst h4; simp [escChar, parseStrAux, unescC, h]
  by_cases h5 : c = '\n'
  · subst h5; simp [escChar, parseStrAux, unescC, h]
  by_cases h6 : c = '\x0c'
  · subst h6; simp [escChar, parseStrAux, unescC, h]
  by_cases h7 : c = '\r'
  · subst h7; simp [escChar, parseStrAux, unescC, h]
  by_cases h8 : c.toNat < 32
  · have hhi : c.toNat / 16 < 16 := by omega
    have hlo : c.toNat % 16 < 16 := by omega
    have h0 : hexVal '0' = some 0 := rfl
    simp only [escChar, h1, h2, h3, h4, h5, h6, h7, if_neg, if_pos h8, ite_false,
      parseStrAux, h0, hexVal_hexDig _ hhi, hexVal_hexDig _ hlo, h, Option.map_some]
    simp [h1, h2, parseStrAux, h0, hexVal_hexDig _ hhi, hexVal_hexDig _ hlo, h]
    rw [show c.toNat / 16 * 16 + c.toNat % 16 = c.toNat from by omega, Char.ofNat_toNat]
  · simp [escChar, h1, h2, h3, h4, h5, h6, h7, h8, parseStrAux, h]

/-- The string-body parser undoes the serializer's escaping: with any
sufficient fuel, the serialized characters followed by the closing quote
parse back to the original characters, leaving the suffix. -/
theorem parseStrAux_esc (l : List Char) : ∀ (fuel : Nat) (r : List Char),
    l.length < fuel → parseStrAux fuel (escChars l ++ '"' :: r) = some (l, r) := by
  induction l with
  | nil =>
    intro fuel r hf
    cases fuel with
    | zero => omega
    | succ f => simp [escChars, parseStrAux]
  | cons c l ih =>
    intro fuel r hf
    cases fuel with
    | zero => omega
    | succ f =>
      have hrec : parseStrAux f (escChars l ++ '"' :: r) = some (l, r) :=
        ih f r (by simp at hf; omega)
      have step := parseStrAux_escChar c f (escChars l ++ '"' :: r) (l, r) hrec
      simpa [escChars, List.append_assoc] using step

/-- Serialized characters are at least as many as the source characters. -/
theorem le_escChars_length (l : List Char) : l.length ≤ (escChars l).length := by
  induction l with
  | nil => simp [escChars]
  | cons c l ih =>
    have h1 : 1 ≤ (escChar c).length := by
      unfold escChar; split_ifs <;> simp
    simp only [escChars, List.length_cons, List.length_append]
    omega

/-- The string-body parser at the fuel `decodeActionAux` supplies (one more
than the remaining input length). -/
theorem parseStrAux_esc_auto (l r : List Char) :
    parseStrAux ((escChars l ++ '"' :: r).length + 1) (escChars l ++ '"' :: r) =
      some (l, r) := by
  refine parseStrAux_esc l _ r ?_
  have := le_escChars_length l
  simp only [List.length_append, List.length_cons]
  omega

/-- Literal prefixes are consumed exactly. -/
theorem expectLit_append (l r : List Char) : expectLit l (l ++ r) = some r := by
  induction l with
  | nil => rfl
  | cons c l ih => simp [expectLit, ih]

/-- Parsing layer round-trip: `json.loads` recovers the field values of a
serialized `Action` exactly. -/
theorem decodeActionAux_encode (a : Action) :
    decodeActionAux (Action.model_dump_json a).data = some a := by
  obtain ⟨m, e, d⟩ := a
  cases d with
  | none =>
    have hdata : (Action.model_dump_json ⟨m, e, none⟩).data =
        ("\x7b\"method\":\"").data ++ (escChars m.data ++ '"' ::
          ((",\"endpoint\":\"").data ++ (escChars e.data ++ '"' ::
            ((",\"data\":").data ++ ('n' :: 'u' :: 'l' :: 'l' :: '\x7d' :: []))))) := by
      simp [Action.model_dump_json, escString, List.append_assoc]
    rw [decodeActionAux, hdata, expectLit_append]
    simp only [Option.bind_eq_bind, Option.some_bind]
    rw [parseStrAux_esc_auto]
    simp only [Option.bind_eq_bind, Option.some_bind]
    rw [expectLit_append]
    simp only [Option.bind_eq_bind, Option.some_bind]
    rw [parseStrAux_esc_auto]
    simp only [Option.bind_eq_bind, Option.some_bind]
    rw [expectLit_append]
    simp only [Option.bind_eq_bind, Option.some_bind]
    rfl
  | some dd =>
    have hdata : (Action.model_dump_json ⟨m, e, some dd⟩).data =
        ("\x7b\"method\":\"").data ++ (escChars m.data ++ '"' ::
          ((",\"endpoint\":\"").data ++ (escChars e.data ++ '"' ::
            ((",\"data\":").data ++
              ('"' :: (escChars dd.data ++ '"' :: '\x7d' :: [])))))) := by
      simp [Action.model_dump_json, escString, List.append_assoc]
    rw [decodeActionAux, hdata, expectLit_append]
    simp only [Option.bind_eq_bind, Option.some_bind]
    rw [parseStrAux_esc_auto]
    simp only [Option.bind_eq_bind, Option.some_bind]
    rw [expectLit_append]
    simp only [Option.bind_eq_bind, Option.some_bind]
    rw [parseStrAux_esc_auto]
    simp only [Option.bind_eq_bind, Option.some_bind]
    rw [expectLit_append]
    simp only [Option.bind_eq_bind, Option.some_bind]
    rw [if_neg (by simp)]
    rw [parseStrAux_esc_auto]
    simp only [Option.bind_eq_bind, Option.some_bind]
    rfl

/-! ## Claim theorems -/

/-- C1: the spec's normalization vectors against `UrlStateHandler.__aenter__`
with no stored cursor and no prior cursor required.  The first eight
conjuncts show every vector holds when the process working directory is the
filesystem root; the last two show the code is working-directory dependent —
`Path.resolve()` absolutizes a relative joined path against the cwd, so with
cwd `/home/dima` the fragments `""` and `"."` return `"/home/dima"`, not the
`"/"` that the spec and the repository's own test
(`tests/test_url_handler.py`) demand. -/
theorem c1_normalization_vectors :
    (UrlStateHandler.aenter [] none (some "") false = .ok "/") ∧
    (UrlStateHandler.aenter [] none (some "/") false = .ok "/") ∧
    (UrlStateHandler.aenter [] none (some ".") false = .ok "/") ∧
    (UrlStateHandler.aenter [] none (some "/////") false = .ok "/") ∧
    (UrlStateHandler.aenter [] none (some "../../") false = .ok "/") ∧
    (UrlStateHandler.aenter [] none (some "/hello") false = .ok "/hello") ∧
    (UrlStateHandler.aenter [] none (some "/hello.com/") false = .ok "/hello.com") ∧
    (UrlStateHandler.aenter [] (some "/hello.com") (some "abc") true = .ok "/hello.com/abc") ∧
    (UrlStateHandler.aenter ["home", "dima"] none (some "") false = .ok "/home/dima") ∧
    (UrlStateHandler.aenter ["home", "dima"] none (some ".") false = .ok "/home/dima") :=
  ⟨rfl, rfl, rfl, rfl, rfl, rfl, rfl, rfl, rfl, rfl⟩

/-- C2: whenever `UrlStateHandler.__aenter__` is given an actual fragment and
returns a cursor, that cursor is an absolute normalized POSIX path — it
renders as `"/"`-joined components none of which is empty, `"."` or `".."`
(root itself renders as `"/"`, which is exactly the clamping of attempts to
escape).  The working directory is canonical (`os.getcwd()` returns an
absolute normalized path), which is the `hcwd` hypothesis. -/
theorem c2_cursor_normalized (cwd : List String) (stored : Option String)
    (frag : String) (required : Bool) (url : String)
    (hcwd : ∀ p ∈ cwd, p ≠ "" ∧ p ≠ "." ∧ p ≠ "..")
    (h : UrlStateHandler.aenter cwd stored (some frag) required = .ok url) :
    ∃ parts : List String, (∀ p ∈ parts, p ≠ "" ∧ p ≠ "." ∧ p ≠ "..") ∧
      url = renderAbs parts := by
  have hshape : ∃ b : String,
      url = pathResolve cwd (pathJoin (pathParse b) (pathParse frag)) := by
    rw [UrlStateHandler.aenter] at h
    split at h
    · exact Except.noConfusion h
    · exact ⟨_, ((Except.ok.injEq _ _).mp h).symm⟩
  obtain ⟨b, rfl⟩ := hshape
  refine ⟨resolveParts
      (if (pathJoin (pathParse b) (pathParse frag)).1 then [] else cwd)
      (pathJoin (pathParse b) (pathParse frag)).2, ?_, rfl⟩
  apply resolveParts_valid
  · intro x hx
    split at hx
    · exact absurd hx (List.not_mem_nil x)
    · exact hcwd x hx
  · intro x hx hne
    rcases pathJoin_parts _ _ x hx with hx | hx
    · have hv := pathParse_parts_valid b x hx
      exact ⟨hv.1, hv.2, hne⟩
    · have hv := pathParse_parts_valid frag x hx
      exact ⟨hv.1, hv.2, hne⟩

/-- Witness for C2 at a concrete input: working directory `/app`, no stored
cursor, fragment `"x"`, cursor not required. -/
theorem c2_cursor_normalized_witness :
    ∃ parts : List String, (∀ p ∈ parts, p ≠ "" ∧ p ≠ "." ∧ p ≠ "..") ∧
      "/app/x" = renderAbs parts :=
  c2_cursor_normalized ["app"] none "x" false "/app/x" (by decide) (by rfl)

/-- C3 (code_bug evidence): the handler treats the two transport failures
differently.  On `httpx.ConnectError` the fixed "Internal error" reply is
sent exactly once with no retry (one outbound call); on `httpx.ConnectTimeout`
— which `except httpx.ConnectError` does not catch, the two being sibling
classes — the exception propagates out of the dispatch and no reply is sent.
The claim that a timeout behaves like a connect failure is therefore false on
the code (the older revision `njordr/service/main.py` caught both). -/
theorem c3_timeout_uncaught :
    (start_handler [] none .connectError =
      ⟨some "/", .answered "Internal error" none, 1⟩) ∧
    (start_handler [] none .connectTimeout =
      ⟨some "/", .raised .connectTimeout, 1⟩) :=
  ⟨rfl, rfl⟩

/-- C4 (code_bug evidence): a start command against a backend whose call
succeeds with body `\x7b"msg":\x7b"text":"hi","actions":[]\x7d\x7d` does not
produce the "hi" reply: the success path reads the misspelt attribute
`response.contect` (`main.py` line 109) and the `AttributeError` propagates
out of the handler — no reply of any kind reaches the user. -/
theorem c4_success_path_attribute_error :
    start_handler [] none
        (.success ⟨"\x7b\"msg\":\x7b\"text\":\"hi\",\"actions\":[]\x7d\x7d"⟩) =
      ⟨some "/", .raised .attributeError, 1⟩ :=
  rfl

/-- C5: when a button click has advanced the cursor and the backend call then
fails with a transport error (connect failure or timeout), the advanced
cursor is still persisted to the conversation state — `__aexit__` runs
`update_data` whether or not the body raised, so the change is not rolled
back. -/
theorem c5_cursor_persisted_on_failure (cwd : List String) (prev s : String)
    (a : Action) (url : String) (outcome : CallOutcome)
    (hdec : decodeAction s = .ok a)
    (hurl : UrlStateHandler.aenter cwd (some prev) (some a.endpoint) true = .ok url)
    (hfail : outcome = .connectError ∨ outcome = .connectTimeout) :
    (callback_query_handler cwd (some prev) (some s) outcome).store = some url := by
  rcases hfail with rfl | rfl <;>
    simp [callback_query_handler, hdec, hurl, dispatchTail, make_service_call]

/-- Witness for C5: a click on the encoded `GET /settings` button with stored
cursor `/` and a connect failure still moves the stored cursor to
`/settings`. -/
theorem c5_cursor_persisted_on_failure_witness :
    (callback_query_handler [] (some "/")
        (some (Action.model_dump_json ⟨"get", "/settings", none⟩))
        .connectError).store = some "/settings" :=
  c5_cursor_persisted_on_failure [] "/" _ ⟨"get", "/settings", none⟩ "/settings"
    .connectError (by rfl) (by rfl) (Or.inl rfl)

/-- C6 (counterexample): a free-text message from a user with no stored
cursor raises the missing-cursor `ValueError` out of the handler; the update
is aborted with NO user-visible reply — contradicting the claimed generic
user-visible error (aiogram merely logs the exception). -/
theorem c6_counterexample :
    message_handler [] none (some "hi") .connectError =
      ⟨none, .raised .valueErrorUrlNotFound, 0⟩ ∧
    (message_handler [] none (some "hi") .connectError).result ≠
      .answered "Internal error" none :=
  ⟨rfl, by decide⟩

/-- C6 (amended): for every update that requires a prior cursor, a missing
stored cursor makes `__aenter__` raise `ValueError("URL not found")`
(`StateError:MissingCursor`); the update is aborted before any backend call,
with no retry and no state write, and the exception propagates to the
chat-transport layer without any reply being sent. -/
theorem c6_missing_cursor_aborts :
    (∀ (cwd : List String) (text : Option String) (outcome : CallOutcome),
      message_handler cwd none text outcome =
        ⟨none, .raised .valueErrorUrlNotFound, 0⟩) ∧
    (∀ (cwd : List String) (s : String) (a : Action) (outcome : CallOutcome),
      decodeAction s = .ok a →
      callback_query_handler cwd none (some s) outcome =
        ⟨none, .raised .valueErrorUrlNotFound, 0⟩) := by
  constructor
  · intro cwd text outcome
    simp [message_handler, UrlStateHandler.aenter]
  · intro cwd s a outcome hdec
    simp [callback_query_handler, hdec, UrlStateHandler.aenter]

/-- Witness for C6 (amended), on the button-click side with a well-formed
payload. -/
theorem c6_missing_cursor_aborts_witness :
    callback_query_handler [] none
        (some (Action.model_dump_json ⟨"get", "/x", none⟩)) .connectError =
      ⟨none, .raised .valueErrorUrlNotFound, 0⟩ :=
  c6_missing_cursor_aborts.2 [] _ ⟨"get", "/x", none⟩ .connectError (by rfl)

/-- C7: the codec round-trip.  For an action with an allow-listed method
whose encoded form is within the 64-byte cap, decoding the encoded payload
returns the original action.  (Encoding is a pure function of the action, so
determinism is immediate.) -/
theorem c7_codec_roundtrip (a : Action)
    (hm : a.method = "get" ∨ a.method = "post")
    (_hcap : (Action.model_dump_json a).length ≤ 64) :
    decodeAction (Action.model_dump_json a) = .ok a := by
  simp only [decodeAction, decodeActionAux_encode a]
  rcases hm with hm | hm <;> simp [hm]

/-- Witness for C7 at the `GET /settings` action (encoded length 52 ≤ 64). -/
theorem c7_codec_roundtrip_witness :
    decodeAction (Action.model_dump_json ⟨"get", "/settings", none⟩) =
      .ok ⟨"get", "/settings", none⟩ :=
  c7_codec_roundtrip ⟨"get", "/settings", none⟩ (Or.inl rfl) (by decide)

/-- C8 (counterexample): an action whose encoded payload is 103 bytes — far
beyond the 64-byte cap — does not fail to encode and is not truncated: the
render succeeds and embeds the entire payload verbatim in the button. -/
theorem c8_counterexample :
    64 < (Action.model_dump_json
        ⟨"get", String.mk (List.replicate 60 'a'), none⟩).length ∧
    generate_keyboard [⟨"B", ⟨"get", String.mk (List.replicate 60 'a'), none⟩⟩] =
      some [[⟨"B", Action.model_dump_json
        ⟨"get", String.mk (List.replicate 60 'a'), none⟩⟩]] :=
  ⟨by decide, rfl⟩

/-- C8 (amended): there is no size check anywhere in the render path — for
any action whose encoded form exceeds the cap, `generate_keyboard` still
succeeds and embeds the oversized payload verbatim (never truncated). -/
theorem c8_oversize_no_failure (t : String) (a : Action)
    (_hbig : 64 < (Action.model_dump_json a).length) :
    generate_keyboard [⟨t, a⟩] = some [[⟨t, Action.model_dump_json a⟩]] :=
  rfl

/-- Witness for C8 (amended) at the 103-byte payload. -/
theorem c8_oversize_no_failure_witness :
    generate_keyboard [⟨"C", ⟨"get", String.mk (List.replicate 60 'a'), none⟩⟩] =
      some [[⟨"C", Action.model_dump_json
        ⟨"get", String.mk (List.replicate 60 'a'), none⟩⟩]] :=
  c8_oversize_no_failure "C" ⟨"get", String.mk (List.replicate 60 'a'), none⟩
    (by decide)

/-- C9: `generate_keyboard` returns no keyboard at all exactly when the
envelope declares zero actions, and otherwise produces one button per action
in envelope order, each carrying the action's label and encoded payload. -/
theorem c9_keyboard_rendering (props : List PropModel) :
    (generate_keyboard props = none ↔ props = []) ∧
    (props ≠ [] → generate_keyboard props =
      some (props.map (fun p => [⟨p.text, p.action.model_dump_json⟩]))) := by
  constructor
  · cases props <;> simp [generate_keyboard]
  · intro h
    simp [generate_keyboard, List.length_eq_zero, h]

/-- Witness for C9: the empty envelope renders no keyboard, a one-action
envelope renders the single labelled button. -/
theorem c9_keyboard_rendering_witness :
    generate_keyboard ([] : List PropModel) = none ∧
    generate_keyboard [⟨"B", ⟨"get", "/x", none⟩⟩] =
      some [[⟨"B", Action.model_dump_json ⟨"get", "/x", none⟩⟩]] :=
  ⟨(c9_keyboard_rendering []).1.mpr rfl,
   (c9_keyboard_rendering [⟨"B", ⟨"get", "/x", none⟩⟩]).2 (by simp)⟩

/-- C10: if `__aenter__` raises (required cursor absent), `__aexit__` never
runs and nothing is written to the conversation store: the stored cursor
after the update is exactly the (absent) cursor from before, for both
handlers that require a prior cursor, whatever the callback data and the
would-be call outcome. -/
theorem c10_no_write_on_enter_failure :
    (∀ (cwd : List String) (text : Option String) (outcome : CallOutcome),
      (message_handler cwd none text outcome).store = none) ∧
    (∀ (cwd : List String) (data : Option String) (outcome : CallOutcome),
      (callback_query_handler cwd none data outcome).store = none) := by
  constructor
  · intro cwd text outcome
    simp [message_handler, UrlStateHandler.aenter]
  · intro cwd data outcome
    cases data with
    | none => rfl
    | some s =>
      cases hd : decodeAction s with
      | error e => simp [callback_query_handler, hd]
      | ok a => simp [callback_query_handler, hd, UrlStateHandler.aenter]

end Njordr
